import Mathlib

/-!
Verification of the image-pipeline script `src/main.py`.

The script is a linear, one-shot sequence of library calls:

  input = cv2.imread('example.jpg')
  newHeight = input.shape[0] * (600 / input.shape[1])
  input = cv2.resize(input, (600, input.shape[0]))
  overlay = cv2.imread('squirrel.jpg')
  cv2.imshow("Resized", input)
  cv2.waitKey(0)

We embed the script shallowly.  Pixel buffers are a structure carrying the
shape (height, width, channels) and the sample data.  The external image
library (decode, resize, display, key wait) is a black box in the source,
so its two consumed capabilities are modelled from the spec (sections 4
and 6).  The script itself is the function `run`, translated line by line
from `src/main.py`; it is parametrised by the filesystem (a map from paths
to decodable images, `none` marking a missing or undecodable file), by the
stream of key events, and — to state that the script never consults them —
by command-line arguments and the process environment.  `run` also records
the trace of externally visible events of the run.
-/

/-- Pixel Buffer (spec section 3): decoded raster image, a dense array of
unsigned 8-bit samples with shape (height, width, channels).  Samples are
indexed by row, column and channel. -/
structure Image where
  height : Nat
  width : Nat
  channels : Nat
  data : Nat → Nat → Nat → Fin 256

/-- An OpenCV matrix is empty when one of its plane dimensions is zero
(cv::Size::empty). -/
def Image.isEmpty (img : Image) : Bool := img.height == 0 || img.width == 0

/-- Modelled from the spec: the decode capability of the external image
library (spec section 6, `decode(path) -> PixelBuffer`).  Following spec
section 4.1, a path that does not resolve to a decodable image yields the
sentinel "no data" result — in Python, `cv2.imread` returns `None` — and
the source performs no check on it.  The filesystem is abstracted as a map
from paths to the images their contents decode to. -/
def imread (fs : String → Option Image) (path : String) : Option Image :=
  fs path

/-- Failure raised by the external resize when its dimension assertions
fail; the spec (sections 4.2 and 7) names this `InvalidDimensionError`. -/
inductive CVError where
  | invalidDimension
deriving DecidableEq

/-- Modelled from the spec: the resize capability of the external image
library (spec section 4.2 and OpenCV's documented `cv::resize` semantics).
`dsize` is the (width, height) pair passed by the caller.  The call fails
when the source buffer is empty or a target dimension is not positive;
otherwise it yields a new buffer of height `dsize.2`, width `dsize.1`,
with the channel count preserved.  Pixel content is produced by
coordinate-scaled sampling; no claim depends on the interpolated sample
values, only on the shape. -/
def cv2_resize (src : Image) (dsize : Int × Int) : Except CVError Image :=
  if src.isEmpty ∨ dsize.1 ≤ 0 ∨ dsize.2 ≤ 0 then
    Except.error CVError.invalidDimension
  else
    Except.ok
      { height := dsize.2.toNat
        width := dsize.1.toNat
        channels := src.channels
        data := fun i j c =>
          src.data (i * src.height / dsize.2.toNat) (j * src.width / dsize.1.toNat) c }

/-- The dsize argument the script passes to the resize call on line 14:
the fixed width 600 paired with the ORIGINAL height `input.shape[0]` — the
computed `newHeight` appears nowhere in it. -/
def scriptDSize (img : Image) : Int × Int :=
  ((600 : Int), (img.height : Int))

/-- Errors a run of the script can surface.  `attributeError` is Python's
failure when `.shape` is read on the `None` sentinel; `zeroDivisionError`
is Python's failure of `600 / input.shape[1]` on a zero width;
`cvError` wraps a failure of the external resize.  `resourceLoadError` is
the spec's name (sections 4.1 and 7) for an explicit load failure; it is
included so that its absence from every run is statable. -/
inductive ScriptError where
  | attributeError
  | zeroDivisionError
  | resourceLoadError
  | cvError (e : CVError)
deriving DecidableEq

/-- Externally visible events of a run, in order: a filesystem read, the
rendering of a window with its title, the blocking wait for a key, and the
arrival of a key-input event. -/
inductive Event where
  | read (path : String)
  | imshow (title : String)
  | waitKey
  | keyReceived (k : Nat)
deriving DecidableEq

/-- The state at the end of a completed run: the resized base image (the
rebound variable `input`), the computed-but-unused `newHeight`, the loaded
overlay (possibly the sentinel), the displayed window and the key that
ended the wait. -/
structure FinalState where
  input : Image
  newHeight : ℚ
  overlay : Option Image
  windowTitle : String
  windowImage : Image
  key : Nat

/-- Outcome of a run: an error with the trace up to the failure, a run
blocked forever inside `cv2.waitKey(0)` because no key event ever arrives,
or a completed run with its final state and full trace. -/
inductive RunOutcome where
  | error (e : ScriptError) (trace : List Event)
  | blocked (trace : List Event)
  | done (st : FinalState) (trace : List Event)

/-- Trace of a run outcome. -/
def RunOutcome.trace : RunOutcome → List Event
  | RunOutcome.error _ t => t
  | RunOutcome.blocked t => t
  | RunOutcome.done _ t => t

/-- Paths read from the filesystem during a run. -/
def readsOf (o : RunOutcome) : List String :=
  o.trace.filterMap fun e =>
    match e with
    | Event.read p => some p
    | _ => none

/-- The script `src/main.py`, line by line.  Line 12 loads `example.jpg`;
line 13 reads `input.shape` — an `AttributeError` on the `None` sentinel —
and computes `newHeight = input.shape[0] * (600 / input.shape[1])` (Python
float division is modelled as exact rational division; a zero width is a
`ZeroDivisionError`); line 14 resizes to `(600, input.shape[0])`; line 17
loads `squirrel.jpg` into `overlay` with no further use; line 20 renders
the window "Resized"; line 21 blocks until a key event arrives.  `keys` is
the stream of key events; `argv` and `env` are the command line and the
process environment, which the script never consults. -/
def run (fs : String → Option Image) (keys : List Nat)
    (argv : List String) (env : String → Option String) : RunOutcome :=
  match imread fs "example.jpg" with
  | none => RunOutcome.error ScriptError.attributeError [Event.read "example.jpg"]
  | some input0 =>
    if input0.width = 0 then
      RunOutcome.error ScriptError.zeroDivisionError [Event.read "example.jpg"]
    else
      match cv2_resize input0 (scriptDSize input0) with
      | Except.error e =>
          RunOutcome.error (ScriptError.cvError e) [Event.read "example.jpg"]
      | Except.ok input1 =>
        match keys with
        | [] =>
            RunOutcome.blocked
              [Event.read "example.jpg", Event.read "squirrel.jpg",
               Event.imshow "Resized", Event.waitKey]
        | k :: _ =>
            RunOutcome.done
              { input := input1
                newHeight := (input0.height : ℚ) * (600 / (input0.width : ℚ))
                overlay := imread fs "squirrel.jpg"
                windowTitle := "Resized"
                windowImage := input1
                key := k }
              [Event.read "example.jpg", Event.read "squirrel.jpg",
               Event.imshow "Resized", Event.waitKey, Event.keyReceived k]

/-! Concrete fixtures used by the witness theorems.  `exImg` is the
400×800×3 base image of the spec's scenario; `sqImg` is a decodable
overlay; `fs1` is a filesystem holding both; `emptyImg` is an empty
buffer; `env0` is an empty process environment. -/

/-- Concrete 400×800×3 image, the spec's scenario input. -/
def exImg : Image :=
  { height := 400, width := 800, channels := 3, data := fun _ _ _ => 0 }

/-- Concrete 200×300×3 overlay image. -/
def sqImg : Image :=
  { height := 200, width := 300, channels := 3, data := fun _ _ _ => 0 }

/-- Empty pixel buffer. -/
def emptyImg : Image :=
  { height := 0, width := 0, channels := 3, data := fun _ _ _ => 0 }

/-- Filesystem holding `example.jpg` (400×800×3) and `squirrel.jpg`. -/
def fs1 : String → Option Image := fun p =>
  if p = "example.jpg" then some exImg
  else if p = "squirrel.jpg" then some sqImg
  else none

/-- Empty process environment. -/
def env0 : String → Option String := fun _ => none

/-! Helper lemmas shared by the claim theorems. -/

/-- On a nonempty source and positive target width, the external resize
succeeds and the output shape is (original height, target width) with the
channel count preserved. -/
theorem cv2_resize_shape (img : Image) (w2 : Nat)
    (hH : 0 < img.height) (hW : 0 < img.width) (hw2 : 0 < w2) :
    ∃ out, cv2_resize img ((w2 : Int), (img.height : Int)) = Except.ok out ∧
      out.height = img.height ∧ out.width = w2 ∧ out.channels = img.channels := by
  have hcond : ¬((img.isEmpty : Prop) ∨ ((w2 : Int), (img.height : Int)).1 ≤ 0 ∨
      ((w2 : Int), (img.height : Int)).2 ≤ 0) := by
    simp only [Image.isEmpty, Bool.or_eq_true, beq_iff_eq]
    omega
  unfold cv2_resize
  rw [if_neg hcond]
  exact ⟨_, rfl, by simp, by simp, rfl⟩

/-- Inversion of a successful external resize: the output shape is given
by `dsize` and the channels by the source. -/
theorem cv2_resize_ok_inv (src : Image) (dsize : Int × Int) (out : Image)
    (h : cv2_resize src dsize = Except.ok out) :
    out.height = dsize.2.toNat ∧ out.width = dsize.1.toNat ∧
      out.channels = src.channels := by
  unfold cv2_resize at h
  split at h
  · exact absurd h (by simp)
  · injection h with h
    subst h
    exact ⟨rfl, rfl, rfl⟩

/-- Inversion of a completed run: the base image decoded, its width was
nonzero, the resize succeeded, a key event arrived, and the final state
and trace are exactly those built on lines 12–21 of the script. -/
theorem run_done_inv (fs : String → Option Image) (keys : List Nat)
    (argv : List String) (env : String → Option String)
    (st : FinalState) (tr : List Event)
    (h : run fs keys argv env = RunOutcome.done st tr) :
    ∃ img input1 k ks,
      imread fs "example.jpg" = some img ∧ ¬(img.width = 0) ∧
      cv2_resize img (scriptDSize img) = Except.ok input1 ∧
      keys = k :: ks ∧
      st = { input := input1
             newHeight := (img.height : ℚ) * (600 / (img.width : ℚ))
             overlay := imread fs "squirrel.jpg"
             windowTitle := "Resized"
             windowImage := input1
             key := k } ∧
      tr = [Event.read "example.jpg", Event.read "squirrel.jpg",
            Event.imshow "Resized", Event.waitKey, Event.keyReceived k] := by
  unfold run at h
  split at h
  · exact absurd h (by simp)
  next input0 heq =>
    split at h
    · exact absurd h (by simp)
    next hw =>
      split at h
      · exact absurd h (by simp)
      next input1 hres =>
        split at h
        · exact absurd h (by simp)
        next k ks =>
          injection h with h1 h2
          exact ⟨input0, input1, k, ks, heq, hw, hres, rfl, h1.symm, h2.symm⟩

/-! Claim theorems. -/

/-- C1: resizing a nonempty (H, W, 3) buffer to a positive target width
W2 yields a buffer of dimensions (H, W2, 3) — the height is unchanged,
reproducing the source's literal behavior of passing the original height
in the dsize argument. -/
theorem resize_width_only_dims (img : Image) (w2 : Nat)
    (hH : 0 < img.height) (hW : 0 < img.width) (hw2 : 0 < w2)
    (hc : img.channels = 3) :
    ∃ out, cv2_resize img ((w2 : Int), (img.height : Int)) = Except.ok out ∧
      out.height = img.height ∧ out.width = w2 ∧ out.channels = 3 := by
  obtain ⟨out, hres, h1, h2, h3⟩ := cv2_resize_shape img w2 hH hW hw2
  exact ⟨out, hres, h1, h2, h3.trans hc⟩

/-- C1 witness: the spec's scenario — a 400×800×3 input resized to width
600 yields a 400×600×3 output. -/
theorem resize_width_only_dims_witness :
    0 < exImg.height ∧ 0 < exImg.width ∧ 0 < 600 ∧ exImg.channels = 3 ∧
    ∃ out, cv2_resize exImg (((600 : Nat) : Int), (exImg.height : Int)) = Except.ok out ∧
      out.height = 400 ∧ out.width = 600 ∧ out.channels = 3 := by
  refine ⟨by decide, by decide, by decide, rfl, ?_⟩
  obtain ⟨out, hres, h1, h2, h3⟩ :=
    resize_width_only_dims exImg 600 (by decide) (by decide) (by decide) rfl
  exact ⟨out, hres, h1.trans rfl, h2, h3⟩

/-- C2: on every completed run, the state carries
`newHeight = H * (600 / W)` — the aspect-ratio-correct target height is
computed — yet the resize call received the dsize (600, original height),
and the displayed buffer has the ORIGINAL height and width 600: the
computed height is never used. -/
theorem newHeight_computed_but_unused (fs : String → Option Image)
    (keys : List Nat) (argv : List String) (env : String → Option String)
    (img : Image) (st : FinalState) (tr : List Event)
    (hfs : fs "example.jpg" = some img)
    (hrun : run fs keys argv env = RunOutcome.done st tr) :
    st.newHeight = (img.height : ℚ) * (600 / (img.width : ℚ)) ∧
    scriptDSize img = ((600 : Int), (img.height : Int)) ∧
    st.input.height = img.height ∧ st.input.width = 600 := by
  obtain ⟨img0, input1, k, ks, heq, hw, hres, hkeys, hst, htr⟩ :=
    run_done_inv fs keys argv env st tr hrun
  rw [imread, hfs] at heq
  injection heq with heq
  subst heq
  obtain ⟨hh, hww, hcc⟩ := cv2_resize_ok_inv img (scriptDSize img) input1 hres
  subst hst
  refine ⟨rfl, rfl, ?_, ?_⟩
  · simpa [scriptDSize] using hh
  · simpa [scriptDSize] using hww

/-- Resized base image the script produces from `exImg`: 400×600×3. -/
def r1 : Image :=
  { height := 400, width := 600, channels := 3,
    data := fun i j c => exImg.data (i * exImg.height / 400) (j * exImg.width / 600) c }

/-- Final state of the concrete run of the script on `fs1` with one key
event. -/
def st1 : FinalState :=
  { input := r1
    newHeight := (exImg.height : ℚ) * (600 / (exImg.width : ℚ))
    overlay := some sqImg
    windowTitle := "Resized"
    windowImage := r1
    key := 0 }

/-- Trace of the concrete run of the script on `fs1` with one key event. -/
def tr1 : List Event :=
  [Event.read "example.jpg", Event.read "squirrel.jpg",
   Event.imshow "Resized", Event.waitKey, Event.keyReceived 0]

/-- C2 witness: on the concrete 400×800×3 input, the computed height is
300 while the displayed buffer is 400 high and 600 wide — the computed
value visibly differs from the height actually used. -/
theorem newHeight_computed_but_unused_witness :
    fs1 "example.jpg" = some exImg ∧
    run fs1 [0] [] env0 = RunOutcome.done st1 tr1 ∧
    st1.newHeight = (exImg.height : ℚ) * (600 / (exImg.width : ℚ)) ∧
    st1.newHeight = 300 ∧ st1.input.height = 400 ∧ st1.input.width = 600 := by
  obtain ⟨h1, _, h3, h4⟩ :=
    newHeight_computed_but_unused fs1 [0] [] env0 exImg st1 tr1 rfl rfl
  refine ⟨rfl, rfl, h1, ?_, by simpa [exImg] using h3, h4⟩
  rw [h1]
  norm_num [exImg]

/-- C3 counterexample: on a filesystem where no path is decodable,
loading `missing.jpg` silently yields the sentinel `none` — the load does
NOT fail — and the whole run fails with Python's `AttributeError` at the
subsequent shape access, which is not the spec's `ResourceLoadError`. -/
theorem load_missing_sentinel_cex :
    imread (fun _ => none) "missing.jpg" = none ∧
    run (fun _ => none) [0] [] env0 =
      RunOutcome.error ScriptError.attributeError [Event.read "example.jpg"] ∧
    ScriptError.attributeError ≠ ScriptError.resourceLoadError :=
  ⟨rfl, rfl, by decide⟩

/-- C3 amended: loading a path that does not resolve to a decodable image
silently returns the loader's "no data" sentinel rather than failing, and
no run of the script ever surfaces a `ResourceLoadError`. -/
theorem loader_sentinel_no_resource_error (fs : String → Option Image)
    (p : String) (keys : List Nat) (argv : List String)
    (env : String → Option String) (hp : fs p = none) :
    imread fs p = none ∧
    ∀ e tr, run fs keys argv env = RunOutcome.error e tr →
      e ≠ ScriptError.resourceLoadError := by
  refine ⟨by rw [imread, hp], ?_⟩
  intro e tr hrun
  unfold run at hrun
  split at hrun
  · injection hrun with h1 h2
    subst h1
    decide
  · split at hrun
    · injection hrun with h1 h2
      subst h1
      decide
    · split at hrun
      · injection hrun with h1 h2
        subst h1
        simp
      · split at hrun
        · exact absurd hrun (by simp)
        · exact absurd hrun (by simp)

/-- C3 amended witness: on the all-missing filesystem the sentinel comes
back for `missing.jpg` and the run's error is not a `ResourceLoadError`. -/
theorem loader_sentinel_no_resource_error_witness :
    (fun (_ : String) => (none : Option Image)) "missing.jpg" = none ∧
    (imread (fun _ => none) "missing.jpg" = none ∧
     ∀ e tr, run (fun _ => none) [0] [] env0 = RunOutcome.error e tr →
       e ≠ ScriptError.resourceLoadError) :=
  ⟨rfl, loader_sentinel_no_resource_error (fun _ => none) "missing.jpg" [0] [] env0 rfl⟩

/-- C4: the external resize fails with the invalid-dimension error on
every non-positive target width and on every empty input buffer. -/
theorem resize_invalid_dims_error (img : Image) (w2 h2 : Int)
    (h : w2 ≤ 0 ∨ img.isEmpty = true) :
    cv2_resize img (w2, h2) = Except.error CVError.invalidDimension := by
  unfold cv2_resize
  rw [if_pos]
  rcases h with h | h
  · exact Or.inr (Or.inl h)
  · exact Or.inl h

/-- C4 witness: resizing the 400×800×3 buffer to width 0 fails, and
resizing the empty buffer to width 600 fails. -/
theorem resize_invalid_dims_error_witness :
    ((0 : Int) ≤ 0 ∨ exImg.isEmpty = true) ∧
    cv2_resize exImg (0, 400) = Except.error CVError.invalidDimension ∧
    ((600 : Int) ≤ 0 ∨ emptyImg.isEmpty = true) ∧
    cv2_resize emptyImg (600, 0) = Except.error CVError.invalidDimension :=
  ⟨Or.inl (by decide),
   resize_invalid_dims_error exImg 0 400 (Or.inl (by decide)),
   Or.inr (by decide),
   resize_invalid_dims_error emptyImg 600 0 (Or.inr (by decide))⟩

/-- C5: on every completed run, the overlay in the final state is exactly
the loader's output for `squirrel.jpg` — never resized, composited or
modified — the displayed window shows the resized base image, and the full
event trace contains exactly one event touching the overlay: its
filesystem read. -/
theorem overlay_loaded_never_used (fs : String → Option Image)
    (keys : List Nat) (argv : List String) (env : String → Option String)
    (st : FinalState) (tr : List Event)
    (hrun : run fs keys argv env = RunOutcome.done st tr) :
    st.overlay = imread fs "squirrel.jpg" ∧
    st.windowImage = st.input ∧
    tr = [Event.read "example.jpg", Event.read "squirrel.jpg",
          Event.imshow "Resized", Event.waitKey, Event.keyReceived st.key] := by
  obtain ⟨img, input1, k, ks, heq, hw, hres, hkeys, hst, htr⟩ :=
    run_done_inv fs keys argv env st tr hrun
  subst hst
  exact ⟨rfl, rfl, htr⟩

/-- C5 witness: the concrete run keeps the overlay exactly as loaded and
its trace touches `squirrel.jpg` only by the read. -/
theorem overlay_loaded_never_used_witness :
    run fs1 [0] [] env0 = RunOutcome.done st1 tr1 ∧
    st1.overlay = imread fs1 "squirrel.jpg" ∧
    st1.windowImage = st1.input ∧
    tr1 = [Event.read "example.jpg", Event.read "squirrel.jpg",
           Event.imshow "Resized", Event.waitKey, Event.keyReceived st1.key] :=
  ⟨rfl, overlay_loaded_never_used fs1 [0] [] env0 st1 tr1 rfl⟩

/-- C6: with a decodable, nonempty base image, a run with no key event
renders the "Resized" window and then blocks forever in the key wait —
control never returns — while a run whose key stream starts with any key
`k` completes, and its trace ends exactly with the key wait and the key
event: no further step of the script runs before (or after) that event. -/
theorem display_blocks_until_key (fs : String → Option Image)
    (argv : List String) (env : String → Option String) (img : Image)
    (hfs : fs "example.jpg" = some img)
    (hH : 0 < img.height) (hW : 0 < img.width) :
    run fs [] argv env =
      RunOutcome.blocked [Event.read "example.jpg", Event.read "squirrel.jpg",
        Event.imshow "Resized", Event.waitKey] ∧
    ∀ k ks, ∃ st, run fs (k :: ks) argv env =
      RunOutcome.done st [Event.read "example.jpg", Event.read "squirrel.jpg",
        Event.imshow "Resized", Event.waitKey, Event.keyReceived k] := by
  have hW0 : ¬(img.width = 0) := by omega
  obtain ⟨out, hres0, _, _, _⟩ := cv2_resize_shape img 600 hH hW (by omega)
  have hres : cv2_resize img (scriptDSize img) = Except.ok out := by
    have hd : scriptDSize img = (((600 : Nat) : Int), (img.height : Int)) := by
      simp [scriptDSize]
    rw [hd, hres0]
  constructor
  · simp only [run, imread, hfs, if_neg hW0, hres]
  · intro k ks
    refine ⟨{ input := out
              newHeight := (img.height : ℚ) * (600 / (img.width : ℚ))
              overlay := imread fs "squirrel.jpg"
              windowTitle := "Resized"
              windowImage := out
              key := k }, ?_⟩
    simp only [run, imread, hfs, if_neg hW0, hres]

/-- C6 witness: on the concrete filesystem, the keyless run blocks after
rendering and the run with key 0 completes with the key event last. -/
theorem display_blocks_until_key_witness :
    fs1 "example.jpg" = some exImg ∧ 0 < exImg.height ∧ 0 < exImg.width ∧
    (run fs1 [] [] env0 =
      RunOutcome.blocked [Event.read "example.jpg", Event.read "squirrel.jpg",
        Event.imshow "Resized", Event.waitKey] ∧
     ∀ k ks, ∃ st, run fs1 (k :: ks) [] env0 =
      RunOutcome.done st [Event.read "example.jpg", Event.read "squirrel.jpg",
        Event.imshow "Resized", Event.waitKey, Event.keyReceived k]) :=
  ⟨rfl, by decide, by decide,
   display_blocks_until_key fs1 [] env0 exImg rfl (by decide) (by decide)⟩

/-- C7: a run is entirely determined by the filesystem and the key
events — the command line and the environment are never consulted — and
the paths a run reads are exactly `example.jpg`, followed by
`squirrel.jpg` whenever the run gets past the base image's shape access
and resize. -/
theorem inputs_fixed_no_cli_env (fs : String → Option Image)
    (keys : List Nat) (argv argv2 : List String)
    (env env2 : String → Option String) :
    run fs keys argv env = run fs keys argv2 env2 ∧
    (readsOf (run fs keys argv env) = ["example.jpg"] ∨
     readsOf (run fs keys argv env) = ["example.jpg", "squirrel.jpg"]) := by
  refine ⟨rfl, ?_⟩
  rcases hfs : imread fs "example.jpg" with _ | img
  · left
    simp only [run, hfs]
    rfl
  · by_cases hw : img.width = 0
    · left
      simp only [run, hfs, if_pos hw]
      rfl
    · rcases hres : cv2_resize img (scriptDSize img) with e | out
      · left
        simp only [run, hfs, if_neg hw, hres]
        rfl
      · cases keys with
        | nil =>
          right
          simp only [run, hfs, if_neg hw, hres]
          rfl
        | cons k ks =>
          right
          simp only [run, hfs, if_neg hw, hres]
          rfl

/-- C8: loading a valid image file whose content decodes to an (H, W, 3)
buffer yields a pixel buffer with exactly those dimensions. -/
theorem imread_preserves_dims (fs : String → Option Image) (p : String)
    (img : Image) (hfs : fs p = some img) (hc : img.channels = 3) :
    ∃ out, imread fs p = some out ∧ out.height = img.height ∧
      out.width = img.width ∧ out.channels = 3 :=
  ⟨img, by rw [imread, hfs], rfl, rfl, hc⟩

/-- C8 witness: loading the concrete 400×800×3 `example.jpg` yields a
400×800×3 buffer. -/
theorem imread_preserves_dims_witness :
    fs1 "example.jpg" = some exImg ∧ exImg.channels = 3 ∧
    ∃ out, imread fs1 "example.jpg" = some out ∧ out.height = exImg.height ∧
      out.width = exImg.width ∧ out.channels = 3 :=
  ⟨rfl, rfl, imread_preserves_dims fs1 "example.jpg" exImg rfl rfl⟩

/-- C9: when the base image does not decode, the run fails with the
`AttributeError` of the shape access on the sentinel, and the trace stops
at the read of `example.jpg`: the overlay `squirrel.jpg` is never read, no
window is ever rendered, and the key wait is never reached. -/
theorem missing_base_fails_before_overlay (fs : String → Option Image)
    (keys : List Nat) (argv : List String) (env : String → Option String)
    (hfs : fs "example.jpg" = none) :
    ∃ tr, run fs keys argv env = RunOutcome.error ScriptError.attributeError tr ∧
      Event.read "squirrel.jpg" ∉ tr ∧ (∀ t, Event.imshow t ∉ tr) ∧
      Event.waitKey ∉ tr := by
  refine ⟨[Event.read "example.jpg"], ?_, by decide, ?_, by decide⟩
  · simp only [run, imread, hfs]
  · intro t
    simp

/-- C9 witness: on the all-missing filesystem the run fails with the
shape-access error before any other effect. -/
theorem missing_base_fails_before_overlay_witness :
    (fun (_ : String) => (none : Option Image)) "example.jpg" = none ∧
    ∃ tr, run (fun _ => none) [0] [] env0 =
        RunOutcome.error ScriptError.attributeError tr ∧
      Event.read "squirrel.jpg" ∉ tr ∧ (∀ t, Event.imshow t ∉ tr) ∧
      Event.waitKey ∉ tr :=
  ⟨rfl, missing_base_fails_before_overlay (fun _ => none) [0] [] env0 rfl⟩

/-- C10: on every completed run, the rendered window's title is exactly
"Resized", both in the final state and in the rendering event of the
trace. -/
theorem window_title_resized (fs : String → Option Image) (keys : List Nat)
    (argv : List String) (env : String → Option String)
    (st : FinalState) (tr : List Event)
    (hrun : run fs keys argv env = RunOutcome.done st tr) :
    st.windowTitle = "Resized" ∧ Event.imshow "Resized" ∈ tr := by
  obtain ⟨img, input1, k, ks, heq, hw, hres, hkeys, hst, htr⟩ :=
    run_done_inv fs keys argv env st tr hrun
  subst hst
  subst htr
  exact ⟨rfl, by simp⟩

/-- C10 witness: the concrete completed run has window title "Resized"
and its trace contains the rendering event. -/
theorem window_title_resized_witness :
    run fs1 [0] [] env0 = RunOutcome.done st1 tr1 ∧
    st1.windowTitle = "Resized" ∧ Event.imshow "Resized" ∈ tr1 :=
  ⟨rfl, window_title_resized fs1 [0] [] env0 st1 tr1 rfl⟩
